import Mathlib

/-!
Verification of the hola-proxy entry point (`main.go`).

The file embeds the entry-point wiring of the program: `parse_args` (flag
binding plus validation, where `arg_fail` terminates the process with exit
code 2) and `run` (mode dispatch, resolver construction, credential/discovery
call, endpoint selection, dialer/handler construction and the HTTP server
loop).  External effects — resolver construction, `CredService`,
`http.ListenAndServe`, the two list reports — are modelled by an environment
`Env` supplying their outcomes, and `run` additionally records an event trace
of the observable calls it makes, so that claims about what is or is not
constructed on each path can be stated and proved.

`get_endpoint` and the tunnel-endpoint record live outside the available
source; they are modelled from the specification (each such definition says
so in its doc comment).
-/

namespace HolaProxy

/-- Program version string (`version = "undefined"` in `main.go`). -/
def version : String := "undefined"

/-- Modelled from the spec: the tunnel-endpoint record is defined outside the
available source (`main.go` only uses `endpoint.NetAddr()`, `endpoint.TLSName`
and `endpoint.URL()`).  The spec describes it as network address (host:port),
TLS server name to validate against, proxy-class tag, trial-port flag, and a
port-field identifier. -/
structure TunnelEndpoint where
  Host : String
  Port : Nat
  TLSName : String
  ProxyClass : String
  Trial : Bool
  PortField : String
deriving DecidableEq, Repr

/-- Modelled from the spec: `NetAddr` renders the endpoint's network address
as host:port. -/
def TunnelEndpoint.NetAddr (e : TunnelEndpoint) : String :=
  e.Host ++ ":" ++ toString e.Port

/-- Modelled from the spec: `get_endpoint` is defined outside the available
source (`main.go` only calls it).  Selection policy per the spec, in order:
a non-empty forced port field selects the endpoint whose port-field
identifier matches, failing with "no such port field" when none does;
otherwise the set is filtered by proxy class and the trial flag and the
first match in discovery order is taken, failing with "no matching endpoint"
when the filtered set is empty.  Pure: no I/O, no mutation. -/
def get_endpoint (tunnels : List TunnelEndpoint) (proxy_type : String)
    (trial : Bool) (force_port_field : String) : Except String TunnelEndpoint :=
  if force_port_field ≠ "" then
    match tunnels.find? (fun e => e.PortField == force_port_field) with
    | some e => Except.ok e
    | none => Except.error "no such port field"
  else
    match (tunnels.filter (fun e => e.ProxyClass == proxy_type && e.Trial == trial)).head? with
    | some e => Except.ok e
    | none => Except.error "no matching endpoint"

/-- The `CLIArgs` struct of `main.go` (durations in seconds). -/
structure CLIArgs where
  country : String
  list_countries : Bool
  list_proxies : Bool
  use_trial : Bool
  limit : Nat
  bind_address : String
  verbosity : Int
  timeout : Int
  rotate : Int
  proxy_type : String
  resolver : String
  force_port_field : String
  showVersion : Bool
deriving DecidableEq, Repr

/-- The values of the command-line flags after `flag.Parse()`, one field per
registered flag, named after the flag itself. -/
structure FlagValues where
  force_port_field : String
  country : String
  list_countries : Bool
  list_proxies : Bool
  limit : Nat
  bind_address : String
  verbosity : Int
  timeout : Int
  rotate : Int
  proxy_type : String
  resolver : String
  dont_use_trial : Bool
  version : Bool
deriving DecidableEq, Repr

/-- The flag registrations of `parse_args` (`flag.StringVar`/`BoolVar`/... in
`main.go`): which parsed flag value lands in which `CLIArgs` field.  In
particular the flag named "dont-use-trial" is bound to the field
`use_trial`. -/
def bind_args (fv : FlagValues) : CLIArgs where
  country := fv.country
  list_countries := fv.list_countries
  list_proxies := fv.list_proxies
  use_trial := fv.dont_use_trial
  limit := fv.limit
  bind_address := fv.bind_address
  verbosity := fv.verbosity
  timeout := fv.timeout
  rotate := fv.rotate
  proxy_type := fv.proxy_type
  resolver := fv.resolver
  force_port_field := fv.force_port_field
  showVersion := fv.version

/-- The default flag values registered in `parse_args`. -/
def default_flags : FlagValues where
  force_port_field := ""
  country := "us"
  list_countries := false
  list_proxies := false
  limit := 3
  bind_address := "127.0.0.1:8080"
  verbosity := 20
  timeout := 10
  rotate := 3600
  proxy_type := "direct"
  resolver := "https://cloudflare-dns.com/dns-query"
  dont_use_trial := false
  version := false

/-- `parse_args` of `main.go`: binds the flags and validates them.  Each
validation failure calls `arg_fail`, which prints the message and usage and
terminates the process with exit code 2; this is modelled as an `error`
result carrying the message (the caller `run` maps it to exit code 2 with an
empty event trace). -/
def parse_args (fv : FlagValues) : Except String CLIArgs :=
  let args := bind_args fv
  if args.country = "" then
    Except.error "Country can't be empty string."
  else if args.proxy_type = "" then
    Except.error "Proxy type can't be an empty string."
  else if args.list_countries && args.list_proxies then
    Except.error "list-countries and list-proxies flags are mutually exclusive"
  else
    Except.ok args

/-- The value produced by `NewProxyDialer(endpoint.NetAddr(), endpoint.TLSName,
auth, ...)`: the dialer is bound to the endpoint's network address, its TLS
server name, and the live credentials handle `auth` (represented by an opaque
identifier).  The `net.Dialer` timeout/keep-alive arguments configure the TCP
layer and are not modelled. -/
structure ProxyDialer where
  addr : String
  tls_name : String
  auth : Nat
deriving DecidableEq, Repr

/-- Constructor mirroring `NewProxyDialer` as called from `run`. -/
def NewProxyDialer (addr tls_name : String) (auth : Nat) : ProxyDialer :=
  ⟨addr, tls_name, auth⟩

/-- Observable calls made by `run`, in program order.  Construction events
record the arguments relevant to the claims. -/
inductive Event where
  | printVersion (s : String)
  | printCountries
  | printProxies
  | newResolver
  | credServiceCall (country proxy_type : String)
  | getEndpointCall (tunnels : List TunnelEndpoint) (proxy_type : String)
      (trial : Bool) (force_port_field : String)
  | newProxyDialer (d : ProxyDialer)
  | newProxyHandler (d : ProxyDialer) (resolver : Nat)
  | listenAndServe (bind : String) (err : String)
deriving DecidableEq, Repr

/-- True exactly on `credServiceCall` events. -/
def Event.isCredCall : Event → Bool
  | .credServiceCall _ _ => true
  | _ => false

/-- True exactly on `getEndpointCall` events. -/
def Event.isGetEndpoint : Event → Bool
  | .getEndpointCall _ _ _ _ => true
  | _ => false

/-- True exactly on `newProxyDialer` events. -/
def Event.isNewDialer : Event → Bool
  | .newProxyDialer _ => true
  | _ => false

/-- True exactly on `newProxyHandler` events. -/
def Event.isNewHandler : Event → Bool
  | .newProxyHandler _ _ => true
  | _ => false

/-- Outcomes of the external calls `run` makes, supplied by the world:
the resolver construction result (handle or error), the `CredService`
result (live credentials handle and discovered endpoint set, or error), the
exit codes of the two list modes, and the error with which
`http.ListenAndServe` returns (it always returns a non-nil error). -/
structure Env where
  resolver_result : Except String Nat
  cred_result : Except String (Nat × List TunnelEndpoint)
  print_countries_code : Int
  print_proxies_code : Int
  serve_err : String
deriving Repr

/-- Exit code and event trace of one program run. -/
structure RunResult where
  code : Int
  events : List Event
deriving DecidableEq, Repr

/-- The `run` function of `main.go` (whose result `main` passes to
`os.Exit`): argument parsing (an `arg_fail` inside `parse_args` exits 2
before anything else runs), the version and list modes, then resolver
construction (failure exits 6), the `CredService` discovery call (failure
exits 4), endpoint selection via `get_endpoint` (failure exits 5), dialer and
handler construction, and the server loop — after which `run` logs the
server's termination error and returns 0. -/
def run (fv : FlagValues) (env : Env) : RunResult :=
  match parse_args fv with
  | Except.error _ => ⟨2, []⟩
  | Except.ok args =>
    if args.showVersion then
      ⟨0, [Event.printVersion version]⟩
    else if args.list_countries then
      ⟨env.print_countries_code, [Event.printCountries]⟩
    else if args.list_proxies then
      ⟨env.print_proxies_code, [Event.printProxies]⟩
    else
      match env.resolver_result with
      | Except.error _ => ⟨6, [Event.newResolver]⟩
      | Except.ok resolver =>
        match env.cred_result with
        | Except.error _ =>
          ⟨4, [Event.newResolver, Event.credServiceCall args.country args.proxy_type]⟩
        | Except.ok (auth, tunnels) =>
          match get_endpoint tunnels args.proxy_type args.use_trial args.force_port_field with
          | Except.error _ =>
            ⟨5, [Event.newResolver, Event.credServiceCall args.country args.proxy_type,
              Event.getEndpointCall tunnels args.proxy_type args.use_trial args.force_port_field]⟩
          | Except.ok endpoint =>
            let dialer := NewProxyDialer endpoint.NetAddr endpoint.TLSName auth
            ⟨0, [Event.newResolver, Event.credServiceCall args.country args.proxy_type,
              Event.getEndpointCall tunnels args.proxy_type args.use_trial args.force_port_field,
              Event.newProxyDialer dialer,
              Event.newProxyHandler dialer resolver,
              Event.listenAndServe args.bind_address env.serve_err]⟩

/-- A sample discovered endpoint, used for concrete runs. -/
def sample_endpoint : TunnelEndpoint :=
  ⟨"zagent783.hola.org", 22222, "hola.org", "direct", false, "direct"⟩

/-- An environment in which every external call succeeds and the server loop
later terminates with a bind error. -/
def env_ok : Env :=
  ⟨Except.ok 0, Except.ok (7, [sample_endpoint]), 0, 0,
    "listen tcp 127.0.0.1:8080: bind: address already in use"⟩

/-- An environment in which the control plane rejects the discovery call. -/
def env_cred_fail : Env :=
  ⟨Except.ok 0, Except.error "server response code 403", 0, 0, "x"⟩

/-- An environment in which discovery succeeds with an empty endpoint set, so
endpoint selection fails. -/
def env_sel_fail : Env :=
  ⟨Except.ok 0, Except.ok (7, []), 0, 0, "x"⟩

/-- Flag values with `-dont-use-trial` set. -/
def fv_trial : FlagValues := { default_flags with dont_use_trial := true }

/-- Flag values with `-version` set. -/
def fv_version : FlagValues := { default_flags with version := true }

/-- Flag values with `-version` set together with both mutually exclusive
list flags. -/
def fv_version_lists : FlagValues :=
  { default_flags with version := true, list_countries := true, list_proxies := true }

/-- Flag values with an empty country string. -/
def fv_empty_country : FlagValues := { default_flags with country := "" }

/-- When `parse_args` succeeds, the returned arguments are exactly the bound
flag values. -/
lemma parse_args_ok_eq (fv : FlagValues) (a : CLIArgs)
    (h : parse_args fv = Except.ok a) : a = bind_args fv := by
  simp only [parse_args] at h
  split at h
  · simp_all
  · split at h
    · simp_all
    · split at h <;> simp_all

/-- Case analysis of `run`: every run takes exactly one of the eight paths of
`run` in `main.go`, with the stated exit code and event trace. -/
lemma run_shape (fv : FlagValues) (env : Env) :
    (∃ m, parse_args fv = Except.error m ∧ run fv env = ⟨2, []⟩) ∨
    (∃ a, parse_args fv = Except.ok a ∧ a.showVersion = true ∧
      run fv env = ⟨0, [Event.printVersion version]⟩) ∨
    (∃ a, parse_args fv = Except.ok a ∧ a.showVersion = false ∧
      a.list_countries = true ∧
      run fv env = ⟨env.print_countries_code, [Event.printCountries]⟩) ∨
    (∃ a, parse_args fv = Except.ok a ∧ a.showVersion = false ∧
      a.list_countries = false ∧ a.list_proxies = true ∧
      run fv env = ⟨env.print_proxies_code, [Event.printProxies]⟩) ∨
    (∃ a m, parse_args fv = Except.ok a ∧ a.showVersion = false ∧
      a.list_countries = false ∧ a.list_proxies = false ∧
      env.resolver_result = Except.error m ∧
      run fv env = ⟨6, [Event.newResolver]⟩) ∨
    (∃ a r m, parse_args fv = Except.ok a ∧ a.showVersion = false ∧
      a.list_countries = false ∧ a.list_proxies = false ∧
      env.resolver_result = Except.ok r ∧ env.cred_result = Except.error m ∧
      run fv env =
        ⟨4, [Event.newResolver, Event.credServiceCall a.country a.proxy_type]⟩) ∨
    (∃ a r auth tunnels m, parse_args fv = Except.ok a ∧ a.showVersion = false ∧
      a.list_countries = false ∧ a.list_proxies = false ∧
      env.resolver_result = Except.ok r ∧
      env.cred_result = Except.ok (auth, tunnels) ∧
      get_endpoint tunnels a.proxy_type a.use_trial a.force_port_field =
        Except.error m ∧
      run fv env =
        ⟨5, [Event.newResolver, Event.credServiceCall a.country a.proxy_type,
          Event.getEndpointCall tunnels a.proxy_type a.use_trial a.force_port_field]⟩) ∨
    (∃ a r auth tunnels ep, parse_args fv = Except.ok a ∧ a.showVersion = false ∧
      a.list_countries = false ∧ a.list_proxies = false ∧
      env.resolver_result = Except.ok r ∧
      env.cred_result = Except.ok (auth, tunnels) ∧
      get_endpoint tunnels a.proxy_type a.use_trial a.force_port_field =
        Except.ok ep ∧
      run fv env =
        ⟨0, [Event.newResolver, Event.credServiceCall a.country a.proxy_type,
          Event.getEndpointCall tunnels a.proxy_type a.use_trial a.force_port_field,
          Event.newProxyDialer (NewProxyDialer ep.NetAddr ep.TLSName auth),
          Event.newProxyHandler (NewProxyDialer ep.NetAddr ep.TLSName auth) r,
          Event.listenAndServe a.bind_address env.serve_err]⟩) := by
  cases hpa : parse_args fv with
  | error m =>
    exact Or.inl ⟨m, rfl, by simp [run, hpa]⟩
  | ok a =>
    by_cases hv : a.showVersion = true
    · exact Or.inr (Or.inl ⟨a, rfl, hv, by simp [run, hpa, hv]⟩)
    · have hv' : a.showVersion = false := by simpa using hv
      by_cases hlc : a.list_countries = true
      · exact Or.inr (Or.inr (Or.inl ⟨a, rfl, hv', hlc, by simp [run, hpa, hv', hlc]⟩))
      · have hlc' : a.list_countries = false := by simpa using hlc
        by_cases hlp : a.list_proxies = true
        · exact Or.inr (Or.inr (Or.inr (Or.inl
            ⟨a, rfl, hv', hlc', hlp, by simp [run, hpa, hv', hlc', hlp]⟩)))
        · have hlp' : a.list_proxies = false := by simpa using hlp
          cases hres : env.resolver_result with
          | error m =>
            exact Or.inr (Or.inr (Or.inr (Or.inr (Or.inl
              ⟨a, m, rfl, hv', hlc', hlp', rfl,
                by simp [run, hpa, hv', hlc', hlp', hres]⟩))))
          | ok r =>
            cases hcred : env.cred_result with
            | error m =>
              exact Or.inr (Or.inr (Or.inr (Or.inr (Or.inr (Or.inl
                ⟨a, r, m, rfl, hv', hlc', hlp', rfl, rfl,
                  by simp [run, hpa, hv', hlc', hlp', hres, hcred]⟩)))))
            | ok p =>
              obtain ⟨auth, tunnels⟩ := p
              cases hep : get_endpoint tunnels a.proxy_type a.use_trial a.force_port_field with
              | error m =>
                exact Or.inr (Or.inr (Or.inr (Or.inr (Or.inr (Or.inr (Or.inl
                  ⟨a, r, auth, tunnels, m, rfl, hv', hlc', hlp', rfl, rfl, hep,
                    by simp [run, hpa, hv', hlc', hlp', hres, hcred, hep]⟩))))))
              | ok ep =>
                exact Or.inr (Or.inr (Or.inr (Or.inr (Or.inr (Or.inr (Or.inr
                  ⟨a, r, auth, tunnels, ep, rfl, hv', hlc', hlp', rfl, rfl, hep,
                    by simp [run, hpa, hv', hlc', hlp', hres, hcred, hep]⟩))))))

/-- Claim C1: in every run in which `CredService` is invoked and returns a
non-nil error (discovery failure, e.g. the control plane rejects with HTTP
403), `run` returns exit code 4 and never constructs a proxy dialer
(`NewProxyDialer`) or a proxy handler (`NewProxyHandler`) and never starts
the HTTP server. -/
theorem C1_cred_failure_aborts_with_4 (fv : FlagValues) (env : Env) (m : String)
    (hcred : env.cred_result = Except.error m)
    (hcall : ∃ c p, Event.credServiceCall c p ∈ (run fv env).events) :
    (run fv env).code = 4 ∧
    (∀ d, Event.newProxyDialer d ∉ (run fv env).events) ∧
    (∀ d r, Event.newProxyHandler d r ∉ (run fv env).events) ∧
    (∀ b e, Event.listenAndServe b e ∉ (run fv env).events) := by
  rcases run_shape fv env with
    ⟨m1, hpa, hrun⟩ | ⟨a, hpa, hv, hrun⟩ | ⟨a, hpa, hv, hlc, hrun⟩ |
    ⟨a, hpa, hv, hlc, hlp, hrun⟩ | ⟨a, m1, hpa, hv, hlc, hlp, hres, hrun⟩ |
    ⟨a, r, m1, hpa, hv, hlc, hlp, hres, hcred1, hrun⟩ |
    ⟨a, r, auth, tunnels, m1, hpa, hv, hlc, hlp, hres, hcred1, hep, hrun⟩ |
    ⟨a, r, auth, tunnels, ep, hpa, hv, hlc, hlp, hres, hcred1, hep, hrun⟩ <;>
    rw [hrun] at hcall ⊢ <;> simp_all

/-- Witness for C1: with default flags and a control plane that rejects the
discovery call, `run` exits with code 4. -/
theorem C1_witness : (run default_flags env_cred_fail).code = 4 :=
  (C1_cred_failure_aborts_with_4 default_flags env_cred_fail
    "server response code 403" rfl ⟨"us", "direct", by decide⟩).1

/-- Claim C2: every startup-phase failure category aborts with a distinct
non-zero exit code — invalid arguments 2, resolver construction failure 6,
discovery (`CredService`) failure 4, endpoint-selection failure 5 — and no
two categories share a code, none being 0. -/
theorem C2_startup_exit_codes (fv : FlagValues) (env : Env) :
    ((∃ m, parse_args fv = Except.error m) → (run fv env).code = 2) ∧
    ((∃ a m, parse_args fv = Except.ok a ∧ a.showVersion = false ∧
        a.list_countries = false ∧ a.list_proxies = false ∧
        env.resolver_result = Except.error m) →
      (run fv env).code = 6) ∧
    ((∃ a r m, parse_args fv = Except.ok a ∧ a.showVersion = false ∧
        a.list_countries = false ∧ a.list_proxies = false ∧
        env.resolver_result = Except.ok r ∧ env.cred_result = Except.error m) →
      (run fv env).code = 4) ∧
    ((∃ a r auth tunnels m, parse_args fv = Except.ok a ∧ a.showVersion = false ∧
        a.list_countries = false ∧ a.list_proxies = false ∧
        env.resolver_result = Except.ok r ∧
        env.cred_result = Except.ok (auth, tunnels) ∧
        get_endpoint tunnels a.proxy_type a.use_trial a.force_port_field =
          Except.error m) →
      (run fv env).code = 5) ∧
    ((2 : Int) ≠ 0 ∧ (4 : Int) ≠ 0 ∧ (5 : Int) ≠ 0 ∧ (6 : Int) ≠ 0 ∧
      (2 : Int) ≠ 4 ∧ (2 : Int) ≠ 5 ∧ (2 : Int) ≠ 6 ∧ (4 : Int) ≠ 5 ∧
      (4 : Int) ≠ 6 ∧ (5 : Int) ≠ 6) := by
  refine ⟨?_, ?_, ?_, ?_, by norm_num⟩
  · rintro ⟨m, hm⟩
    simp [run, hm]
  · rintro ⟨a, m, hpa, hv, hlc, hlp, hres⟩
    simp [run, hpa, hv, hlc, hlp, hres]
  · rintro ⟨a, r, m, hpa, hv, hlc, hlp, hres, hcred⟩
    simp [run, hpa, hv, hlc, hlp, hres, hcred]
  · rintro ⟨a, r, auth, tunnels, m, hpa, hv, hlc, hlp, hres, hcred, hep⟩
    simp [run, hpa, hv, hlc, hlp, hres, hcred, hep]

/-- Witness for C2: a run whose discovery call fails exits with code 4. -/
theorem C2_witness : (run default_flags env_cred_fail).code = 4 :=
  (C2_startup_exit_codes default_flags env_cred_fail).2.2.1
    ⟨bind_args default_flags, 0, "server response code 403", rfl, rfl, rfl, rfl,
      rfl, rfl⟩

/-- Claim C3 as stated is false: a run in which the HTTP server loop
terminates with a bind error still returns exit code 0, because `run` ends
with `return 0` after logging the server's termination reason. -/
theorem C3_counterexample :
    Event.listenAndServe "127.0.0.1:8080"
        "listen tcp 127.0.0.1:8080: bind: address already in use" ∈
      (run default_flags env_ok).events ∧
    (run default_flags env_ok).code = 0 := by decide

/-- Claim C3 amended: in every run in which the local HTTP server loop
terminates with an error (including failure to bind the configured address),
`run` logs the error and returns exit code 0 — the process does not abort
with a non-zero code. -/
theorem C3_server_error_exits_zero (fv : FlagValues) (env : Env) (b e : String)
    (h : Event.listenAndServe b e ∈ (run fv env).events) :
    (run fv env).code = 0 := by
  rcases run_shape fv env with
    ⟨m1, hpa, hrun⟩ | ⟨a, hpa, hv, hrun⟩ | ⟨a, hpa, hv, hlc, hrun⟩ |
    ⟨a, hpa, hv, hlc, hlp, hrun⟩ | ⟨a, m1, hpa, hv, hlc, hlp, hres, hrun⟩ |
    ⟨a, r, m1, hpa, hv, hlc, hlp, hres, hcred, hrun⟩ |
    ⟨a, r, auth, tunnels, m1, hpa, hv, hlc, hlp, hres, hcred, hep, hrun⟩ |
    ⟨a, r, auth, tunnels, ep, hpa, hv, hlc, hlp, hres, hcred, hep, hrun⟩ <;>
    rw [hrun] at h ⊢ <;> simp_all

/-- Witness for C3 (amended): the concrete failing-bind run returns 0. -/
theorem C3_witness : (run default_flags env_ok).code = 0 :=
  C3_server_error_exits_zero default_flags env_ok "127.0.0.1:8080"
    "listen tcp 127.0.0.1:8080: bind: address already in use" (by decide)

/-- Claim C4: endpoint selection is deterministic — two calls of
`get_endpoint` on identical endpoint sets, proxy classes, trial flags and
forced port fields return identical results. -/
theorem C4_get_endpoint_deterministic (t1 t2 : List TunnelEndpoint)
    (pc1 pc2 : String) (tr1 tr2 : Bool) (f1 f2 : String)
    (ht : t1 = t2) (hpc : pc1 = pc2) (htr : tr1 = tr2) (hf : f1 = f2) :
    get_endpoint t1 pc1 tr1 f1 = get_endpoint t2 pc2 tr2 f2 := by
  subst ht
  subst hpc
  subst htr
  subst hf
  rfl

/-- Witness for C4: two identical concrete calls agree, and the common result
evaluates to the sample endpoint. -/
theorem C4_witness :
    get_endpoint [sample_endpoint] "direct" false "" =
      get_endpoint [sample_endpoint] "direct" false "" ∧
    get_endpoint [sample_endpoint] "direct" false "" = Except.ok sample_endpoint :=
  ⟨C4_get_endpoint_deterministic [sample_endpoint] [sample_endpoint] "direct"
      "direct" false false "" "" rfl rfl rfl rfl, rfl⟩

/-- Claim C5: endpoint selection fails closed — a non-empty forced port field
either selects an endpoint whose port-field identifier matches it or fails
with "no such port field" when none matches; with no forced field, an empty
filtered set fails with "no matching endpoint"; and every selection error is
fatal to startup: `run` exits with code 5 without constructing the dialer or
handler or starting the server. -/
theorem C5_selection_fails_closed :
    (∀ tunnels pc tr fpf, fpf ≠ "" →
      (∃ ep, get_endpoint tunnels pc tr fpf = Except.ok ep ∧
        ep.PortField = fpf) ∨
      (get_endpoint tunnels pc tr fpf = Except.error "no such port field" ∧
        ∀ ep ∈ tunnels, ep.PortField ≠ fpf)) ∧
    (∀ tunnels pc tr,
      tunnels.filter (fun ep => ep.ProxyClass == pc && ep.Trial == tr) = [] →
      get_endpoint tunnels pc tr "" = Except.error "no matching endpoint") ∧
    (∀ fv env t pc tr f m,
      Event.getEndpointCall t pc tr f ∈ (run fv env).events →
      get_endpoint t pc tr f = Except.error m →
      (run fv env).code = 5 ∧
      (∀ d, Event.newProxyDialer d ∉ (run fv env).events) ∧
      (∀ d r, Event.newProxyHandler d r ∉ (run fv env).events) ∧
      (∀ b e, Event.listenAndServe b e ∉ (run fv env).events)) := by
  refine ⟨?_, ?_, ?_⟩
  · intro tunnels pc tr fpf hne
    unfold get_endpoint
    rw [if_pos hne]
    cases hfind : tunnels.find? (fun e => e.PortField == fpf) with
    | some ep =>
      left
      refine ⟨ep, rfl, ?_⟩
      have h := List.find?_some hfind
      simpa using h
    | none =>
      right
      refine ⟨rfl, ?_⟩
      intro ep hep
      have h := List.find?_eq_none.mp hfind ep hep
      simpa using h
  · intro tunnels pc tr hfil
    unfold get_endpoint
    rw [if_neg (by simp)]
    rw [hfil]
    rfl
  · intro fv env t pc tr f m hmem herr
    rcases run_shape fv env with
      ⟨m1, hpa, hrun⟩ | ⟨a, hpa, hv, hrun⟩ | ⟨a, hpa, hv, hlc, hrun⟩ |
      ⟨a, hpa, hv, hlc, hlp, hrun⟩ | ⟨a, m1, hpa, hv, hlc, hlp, hres, hrun⟩ |
      ⟨a, r, m1, hpa, hv, hlc, hlp, hres, hcred, hrun⟩ |
      ⟨a, r, auth, tunnels1, m1, hpa, hv, hlc, hlp, hres, hcred, hep, hrun⟩ |
      ⟨a, r, auth, tunnels1, ep, hpa, hv, hlc, hlp, hres, hcred, hep, hrun⟩ <;>
      rw [hrun] at hmem ⊢ <;> simp_all

/-- Witness for C5: with an empty discovered endpoint set, the selection
error is surfaced as exit code 5. -/
theorem C5_witness : (run default_flags env_sel_fail).code = 5 :=
  (C5_selection_fails_closed.2.2 default_flags env_sel_fail [] "direct" false ""
    "no matching endpoint" (by decide) rfl).1

/-- Claim C6 as stated is false: a run with `-version` set invokes
`CredService` zero times, not exactly once. -/
theorem C6_counterexample :
    ((run fv_version env_ok).events.filter Event.isCredCall).length ≠ 1 := by
  decide

/-- Claim C6 amended: in every run `CredService` is invoked at most once and
`get_endpoint` is called at most once; whenever endpoint selection occurs,
`CredService` has been invoked exactly once, before it, and the endpoint set
passed to `get_endpoint` is exactly the set returned by that single call
(rotation never refreshes the endpoint list). -/
theorem C6_cred_service_once (fv : FlagValues) (env : Env) :
    ((run fv env).events.filter Event.isCredCall).length ≤ 1 ∧
    ((run fv env).events.filter Event.isGetEndpoint).length ≤ 1 ∧
    (∀ t pc tr f, Event.getEndpointCall t pc tr f ∈ (run fv env).events →
      ((run fv env).events.filter Event.isCredCall).length = 1 ∧
      (∃ auth, env.cred_result = Except.ok (auth, t)) ∧
      (∃ c p, ∃ i j : Nat, i < j ∧
        (run fv env).events[i]? = some (Event.credServiceCall c p) ∧
        (run fv env).events[j]? = some (Event.getEndpointCall t pc tr f))) := by
  rcases run_shape fv env with
    ⟨m1, hpa, hrun⟩ | ⟨a, hpa, hv, hrun⟩ | ⟨a, hpa, hv, hlc, hrun⟩ |
    ⟨a, hpa, hv, hlc, hlp, hrun⟩ | ⟨a, m1, hpa, hv, hlc, hlp, hres, hrun⟩ |
    ⟨a, r, m1, hpa, hv, hlc, hlp, hres, hcred, hrun⟩ |
    ⟨a, r, auth, tunnels1, m1, hpa, hv, hlc, hlp, hres, hcred, hep, hrun⟩ |
    ⟨a, r, auth, tunnels1, ep, hpa, hv, hlc, hlp, hres, hcred, hep, hrun⟩ <;>
    rw [hrun] <;>
    refine ⟨by simp [Event.isCredCall], by simp [Event.isGetEndpoint], ?_⟩ <;>
    intro t pc tr f hmem
  · exact absurd hmem (by simp)
  · exact absurd hmem (by simp)
  · exact absurd hmem (by simp)
  · exact absurd hmem (by simp)
  · exact absurd hmem (by simp)
  · exact absurd hmem (by simp)
  · have h7 : t = tunnels1 ∧ pc = a.proxy_type ∧ tr = a.use_trial ∧
        f = a.force_port_field := by
      simpa using hmem
    obtain ⟨ht, hpc2, htr, hf⟩ := h7
    subst ht
    subst hpc2
    subst htr
    subst hf
    exact ⟨by simp [Event.isCredCall], ⟨auth, hcred⟩,
      a.country, a.proxy_type, 1, 2, by norm_num, rfl, rfl⟩
  · have h8 : t = tunnels1 ∧ pc = a.proxy_type ∧ tr = a.use_trial ∧
        f = a.force_port_field := by
      simpa using hmem
    obtain ⟨ht, hpc2, htr, hf⟩ := h8
    subst ht
    subst hpc2
    subst htr
    subst hf
    exact ⟨by simp [Event.isCredCall], ⟨auth, hcred⟩,
      a.country, a.proxy_type, 1, 2, by norm_num, rfl, rfl⟩

/-- Witness for C6 (amended): in the successful concrete run, `CredService`
is invoked exactly once. -/
theorem C6_witness :
    ((run default_flags env_ok).events.filter Event.isCredCall).length = 1 :=
  ((C6_cred_service_once default_flags env_ok).2.2 [sample_endpoint] "direct"
    false "" (by decide)).1

/-- Claim C7: in every successful startup (one that reaches the HTTP server
loop), exactly one proxy dialer and exactly one proxy handler are
constructed; the dialer is bound to the selected endpoint's network address
and TLS server name and to the live credentials handle returned by
`CredService`, and the handler is constructed over that dialer and the
resolver before the server loop starts. -/
theorem C7_single_dialer_and_handler (fv : FlagValues) (env : Env)
    (b e : String) (hserve : Event.listenAndServe b e ∈ (run fv env).events) :
    ∃ a auth tunnels ep r,
      parse_args fv = Except.ok a ∧
      env.resolver_result = Except.ok r ∧
      env.cred_result = Except.ok (auth, tunnels) ∧
      get_endpoint tunnels a.proxy_type a.use_trial a.force_port_field =
        Except.ok ep ∧
      (run fv env).events.filter Event.isNewDialer =
        [Event.newProxyDialer (NewProxyDialer ep.NetAddr ep.TLSName auth)] ∧
      (run fv env).events.filter Event.isNewHandler =
        [Event.newProxyHandler (NewProxyDialer ep.NetAddr ep.TLSName auth) r] ∧
      (∃ i j : Nat, i < j ∧
        (run fv env).events[i]? =
          some (Event.newProxyHandler (NewProxyDialer ep.NetAddr ep.TLSName auth) r) ∧
        (run fv env).events[j]? = some (Event.listenAndServe b e)) := by
  rcases run_shape fv env with
    ⟨m1, hpa, hrun⟩ | ⟨a, hpa, hv, hrun⟩ | ⟨a, hpa, hv, hlc, hrun⟩ |
    ⟨a, hpa, hv, hlc, hlp, hrun⟩ | ⟨a, m1, hpa, hv, hlc, hlp, hres, hrun⟩ |
    ⟨a, r, m1, hpa, hv, hlc, hlp, hres, hcred, hrun⟩ |
    ⟨a, r, auth, tunnels1, m1, hpa, hv, hlc, hlp, hres, hcred, hep, hrun⟩ |
    ⟨a, r, auth, tunnels1, ep, hpa, hv, hlc, hlp, hres, hcred, hep, hrun⟩ <;>
    rw [hrun] at hserve ⊢
  · exact absurd hserve (by simp)
  · exact absurd hserve (by simp)
  · exact absurd hserve (by simp)
  · exact absurd hserve (by simp)
  · exact absurd hserve (by simp)
  · exact absurd hserve (by simp)
  · exact absurd hserve (by simp)
  · have hbe : b = a.bind_address ∧ e = env.serve_err := by
      simpa using hserve
    obtain ⟨hb, he⟩ := hbe
    subst hb
    subst he
    exact ⟨a, auth, tunnels1, ep, r, hpa, hres, hcred, hep,
      by simp [Event.isNewDialer], by simp [Event.isNewHandler],
      4, 5, by norm_num, rfl, rfl⟩

/-- Witness for C7: the successful concrete run constructs exactly one
dialer. -/
theorem C7_witness :
    ((run default_flags env_ok).events.filter Event.isNewDialer).length = 1 := by
  obtain ⟨a, auth, tunnels, ep, r, hpa, hres, hcred, hep, hd, hh, hij⟩ :=
    C7_single_dialer_and_handler default_flags env_ok "127.0.0.1:8080"
      "listen tcp 127.0.0.1:8080: bind: address already in use" (by decide)
  rw [hd]
  rfl

/-- Claim C8: the value of the CLI flag named "dont-use-trial" is stored in
the field `use_trial`, and that value is passed unchanged as the trial
argument of `get_endpoint`, so the boolean sense of the selection argument
is inverted relative to the flag's name. -/
theorem C8_dont_use_trial_wiring (fv : FlagValues) (env : Env) :
    (bind_args fv).use_trial = fv.dont_use_trial ∧
    (∀ t pc tr f, Event.getEndpointCall t pc tr f ∈ (run fv env).events →
      tr = fv.dont_use_trial) := by
  refine ⟨rfl, ?_⟩
  intro t pc tr f hmem
  rcases run_shape fv env with
    ⟨m1, hpa, hrun⟩ | ⟨a, hpa, hv, hrun⟩ | ⟨a, hpa, hv, hlc, hrun⟩ |
    ⟨a, hpa, hv, hlc, hlp, hrun⟩ | ⟨a, m1, hpa, hv, hlc, hlp, hres, hrun⟩ |
    ⟨a, r, m1, hpa, hv, hlc, hlp, hres, hcred, hrun⟩ |
    ⟨a, r, auth, tunnels1, m1, hpa, hv, hlc, hlp, hres, hcred, hep, hrun⟩ |
    ⟨a, r, auth, tunnels1, ep, hpa, hv, hlc, hlp, hres, hcred, hep, hrun⟩ <;>
    rw [hrun] at hmem
  · exact absurd hmem (by simp)
  · exact absurd hmem (by simp)
  · exact absurd hmem (by simp)
  · exact absurd hmem (by simp)
  · exact absurd hmem (by simp)
  · exact absurd hmem (by simp)
  · have htr : tr = a.use_trial := by
      have h := by simpa using hmem
      exact h.2.2.1
    rw [htr, parse_args_ok_eq fv a hpa]
    rfl
  · have htr : tr = a.use_trial := by
      have h := by simpa using hmem
      exact h.2.2.1
    rw [htr, parse_args_ok_eq fv a hpa]
    rfl

/-- Witness for C8: with `-dont-use-trial` set, the trial argument actually
passed to `get_endpoint` is `true`. -/
theorem C8_witness :
    (bind_args fv_trial).use_trial = fv_trial.dont_use_trial ∧
    true = fv_trial.dont_use_trial :=
  ⟨(C8_dont_use_trial_wiring fv_trial env_sel_fail).1,
    (C8_dont_use_trial_wiring fv_trial env_sel_fail).2 [] "direct" true ""
      (by decide)⟩

/-- Claim C9: argument validation rejects, with exit code 2 and before any
network activity or component construction (empty event trace), an empty
country string, an empty proxy-type string, and supplying both
`list-countries` and `list-proxies`. -/
theorem C9_validation_rejects (fv : FlagValues) (env : Env)
    (h : fv.country = "" ∨ fv.proxy_type = "" ∨
      (fv.list_countries = true ∧ fv.list_proxies = true)) :
    (run fv env).code = 2 ∧ (run fv env).events = [] := by
  have hpe : ∃ m, parse_args fv = Except.error m := by
    rcases h with h | h | ⟨h1, h2⟩
    · exact ⟨"Country can't be empty string.",
        by simp [parse_args, bind_args, h]⟩
    · by_cases hc : fv.country = ""
      · exact ⟨"Country can't be empty string.",
          by simp [parse_args, bind_args, hc]⟩
      · exact ⟨"Proxy type can't be an empty string.",
          by simp [parse_args, bind_args, hc, h]⟩
    · by_cases hc : fv.country = ""
      · exact ⟨"Country can't be empty string.",
          by simp [parse_args, bind_args, hc]⟩
      · by_cases hp : fv.proxy_type = ""
        · exact ⟨"Proxy type can't be an empty string.",
            by simp [parse_args, bind_args, hc, hp]⟩
        · exact ⟨"list-countries and list-proxies flags are mutually exclusive",
            by simp [parse_args, bind_args, hc, hp, h1, h2]⟩
  obtain ⟨m, hm⟩ := hpe
  constructor <;> simp [run, hm]

/-- Witness for C9: an empty country aborts with code 2 and an empty trace. -/
theorem C9_witness :
    (run fv_empty_country env_ok).code = 2 ∧
    (run fv_empty_country env_ok).events = [] :=
  C9_validation_rejects fv_empty_country env_ok (Or.inl rfl)

/-- Claim C10 as stated is false: with `-version` set together with both
mutually exclusive list flags, argument validation aborts with exit code 2
before the version string is printed, so the version path does not win
regardless of all other flags. -/
theorem C10_counterexample :
    (run fv_version_lists env_ok).code ≠ 0 ∧
    Event.printVersion version ∉ (run fv_version_lists env_ok).events := by
  decide

/-- Claim C10 amended: when `-version` is set and argument validation passes
(non-empty country and proxy type, not both list flags), `run` prints the
version string and returns exit code 0 with no other observable call —
no network operation and no resolver, credential-service, dialer or handler
construction — regardless of the remaining flags. -/
theorem C10_version_short_circuits (fv : FlagValues) (env : Env)
    (hv : fv.version = true) (hc : fv.country ≠ "") (hp : fv.proxy_type ≠ "")
    (hl : ¬(fv.list_countries = true ∧ fv.list_proxies = true)) :
    run fv env = ⟨0, [Event.printVersion version]⟩ := by
  have hpa : parse_args fv = Except.ok (bind_args fv) := by
    simp [parse_args, bind_args, hc, hp, Bool.and_eq_true, hl]
  have hv' : (bind_args fv).showVersion = true := hv
  simp [run, hpa, hv']

/-- Witness for C10 (amended): a `-version` run with otherwise default flags
prints the version and exits 0 with no other event. -/
theorem C10_witness :
    run fv_version env_ok = ⟨0, [Event.printVersion version]⟩ :=
  C10_version_short_circuits fv_version env_ok rfl (by decide) (by decide)
    (by decide)

end HolaProxy
